import Mathlib

/-
Verification of the StudySessionTracker core (the StudySession class).
The implementation file studysession.py is not part of the sources here;
the tracker is therefore modelled from the specification (spec.md) and the
behaviour documented in src/full_doc-tuto-demo.ipynb.  Timestamps and
second counts are modelled as rationals; the "current time" is passed to
every operation explicitly, standing for the injected clock capability.
-/

/-- Modelled from the spec: the four states of §3 / notebook `state` doc
(`studysession.py` is missing from the sources). -/
inductive SessionState
  | INACTIVE
  | RUNNING
  | PAUSED
  | STOPPED
deriving DecidableEq

/-- Modelled from the spec: the SessionTracker data model of §3 and the
notebook property docs (`studysession.py` is missing).  Timestamps are
rationals; `pause_resume_times` is the ordered sequence of
(pauseTime, optional resumeTime) pairs. -/
structure StudySession where
  subject_name : String
  timezone : String
  state : SessionState
  start_time : Option ℚ
  stop_time : Option ℚ
  pause_resume_times : List (ℚ × Option ℚ)
deriving DecidableEq

/-- Modelled from the spec: the two error kinds of §7 (`studysession.py`
is missing).  A StateViolation carries the attempted operation name and
the current state; IndexOutOfRange carries the offending index. -/
inductive StudySessionError
  | stateViolation (op : String) (st : SessionState)
  | indexOutOfRange (idx : Nat)
deriving DecidableEq

/-- Modelled from the spec: construction (§3 lifecycle, notebook
constructor cells): created in INACTIVE with empty pair sequence and
absent times, with an explicit timezone argument. -/
def StudySession.new (subject : String) (tz : String) : StudySession :=
  { subject_name := subject
    timezone := tz
    state := SessionState.INACTIVE
    start_time := none
    stop_time := none
    pause_resume_times := [] }

/-- Modelled from the spec: constructing with only a subject name defaults
the timezone to UTC (notebook: `StudySession('math')` then
`session.timezone` shows `<UTC>`). -/
def StudySession.newDefault (subject : String) : StudySession :=
  StudySession.new subject "UTC"

/-- Modelled from the spec: §4.1 row INACTIVE → start → RUNNING, side
effect `startTime := now`; any other state raises a StateViolation. -/
def start_tracking (now : ℚ) (s : StudySession) : Except StudySessionError StudySession :=
  if s.state = SessionState.INACTIVE then
    Except.ok { s with state := SessionState.RUNNING, start_time := some now }
  else
    Except.error (StudySessionError.stateViolation "start_tracking" s.state)

/-- Modelled from the spec: §4.1 row RUNNING → pause → PAUSED, side effect
append (now, absent) to the pair sequence; otherwise StateViolation. -/
def pause_tracking (now : ℚ) (s : StudySession) : Except StudySessionError StudySession :=
  if s.state = SessionState.RUNNING then
    Except.ok { s with state := SessionState.PAUSED,
                       pause_resume_times := s.pause_resume_times ++ [(now, none)] }
  else
    Except.error (StudySessionError.stateViolation "pause_tracking" s.state)

/-- Sets the resume component of the last pause/resume pair. -/
def closeLastPair (now : ℚ) : List (ℚ × Option ℚ) → List (ℚ × Option ℚ)
  | [] => []
  | [(p, _)] => [(p, some now)]
  | x :: y :: rest => x :: closeLastPair now (y :: rest)

/-- Modelled from the spec: §4.1 row PAUSED → resume → RUNNING, side
effect set the resumeTime of the last pair to now; otherwise
StateViolation. -/
def resume_tracking (now : ℚ) (s : StudySession) : Except StudySessionError StudySession :=
  if s.state = SessionState.PAUSED then
    Except.ok { s with state := SessionState.RUNNING,
                       pause_resume_times := closeLastPair now s.pause_resume_times }
  else
    Except.error (StudySessionError.stateViolation "resume_tracking" s.state)

/-- Modelled from the spec: §4.1 row RUNNING or PAUSED → stop → STOPPED,
side effect `stopTime := now` (the table lists no other side effect);
otherwise StateViolation. -/
def stop_tracking (now : ℚ) (s : StudySession) : Except StudySessionError StudySession :=
  if s.state = SessionState.RUNNING ∨ s.state = SessionState.PAUSED then
    Except.ok { s with state := SessionState.STOPPED, stop_time := some now }
  else
    Except.error (StudySessionError.stateViolation "stop_tracking" s.state)

/-- Modelled from the spec: §4.1 row RUNNING or PAUSED → discard →
INACTIVE, clearing startTime, stopTime and the pair sequence; otherwise
StateViolation. -/
def discard_tracking (s : StudySession) : Except StudySessionError StudySession :=
  if s.state = SessionState.RUNNING ∨ s.state = SessionState.PAUSED then
    Except.ok { s with state := SessionState.INACTIVE,
                       start_time := none, stop_time := none, pause_resume_times := [] }
  else
    Except.error (StudySessionError.stateViolation "discard_tracking" s.state)

/-- Modelled from the spec: §4.1 row STOPPED → reset → INACTIVE, clearing
startTime, stopTime and the pair sequence; otherwise StateViolation. -/
def reset_tracking (s : StudySession) : Except StudySessionError StudySession :=
  if s.state = SessionState.STOPPED then
    Except.ok { s with state := SessionState.INACTIVE,
                       start_time := none, stop_time := none, pause_resume_times := [] }
  else
    Except.error (StudySessionError.stateViolation "reset_tracking" s.state)

/-- Modelled from the spec: timezone mutation is legal only in INACTIVE
(§4.1 last paragraph, notebook timezone doc); otherwise StateViolation and
no field changes. -/
def set_timezone (tz : String) (s : StudySession) : Except StudySessionError StudySession :=
  if s.state = SessionState.INACTIVE then
    Except.ok { s with timezone := tz }
  else
    Except.error (StudySessionError.stateViolation "set_timezone" s.state)

/-- Modelled from the spec: subject-label mutation is legal in any state
(§4.1 last paragraph). -/
def set_subject_name (n : String) (s : StudySession) : StudySession :=
  { s with subject_name := n }

/-- The duration of one pause/resume pair: `(resumeTime ?? now) − pauseTime`
(the "use now() if unresolved" rule of §4.2). -/
def pairDur (now : ℚ) (pr : ℚ × Option ℚ) : ℚ :=
  pr.2.getD now - pr.1

/-- Sum of the pause durations of all pairs, each with the now()-fallback. -/
def pauseSum (now : ℚ) : List (ℚ × Option ℚ) → ℚ
  | [] => 0
  | pr :: rest => pairDur now pr + pauseSum now rest

/-- Modelled from the spec: §4.2 `pauseDuration(index)` — StateViolation
while INACTIVE, `(resumeTime ?? now()) − pauseTime` for an index within
the recorded pairs, IndexOutOfRange otherwise. -/
def get_pause_duration (now : ℚ) (idx : Nat) (s : StudySession) : Except StudySessionError ℚ :=
  if s.state = SessionState.INACTIVE then
    Except.error (StudySessionError.stateViolation "get_pause_duration" s.state)
  else
    match s.pause_resume_times.get? idx with
    | some pr => Except.ok (pairDur now pr)
    | none => Except.error (StudySessionError.indexOutOfRange idx)

/-- Modelled from the spec: §4.2 `cumulativePauseDuration()` — the sum of
the pause durations of all recorded pairs, with the same now()-fallback;
StateViolation while INACTIVE. -/
def get_cumulative_pause_duration (now : ℚ) (s : StudySession) : Except StudySessionError ℚ :=
  if s.state = SessionState.INACTIVE then
    Except.error (StudySessionError.stateViolation "get_cumulative_pause_duration" s.state)
  else
    Except.ok (pauseSum now s.pause_resume_times)

/-- Modelled from the spec: §4.2 `totalDuration()` — `(stopTime ?? now())
− startTime`; StateViolation while INACTIVE.  In every non-INACTIVE state
startTime is present, so the default used for an absent startTime is
irrelevant. -/
def get_duration (now : ℚ) (s : StudySession) : Except StudySessionError ℚ :=
  if s.state = SessionState.INACTIVE then
    Except.error (StudySessionError.stateViolation "get_duration" s.state)
  else
    Except.ok (s.stop_time.getD now - s.start_time.getD 0)

/-- Modelled from the spec: §4.2 `activeDuration()` — `totalDuration() −
cumulativePauseDuration()`, propagating any error of the two constituent
calls and raising nothing else. -/
def get_active_duration (now : ℚ) (s : StudySession) : Except StudySessionError ℚ :=
  match get_duration now s with
  | Except.error e => Except.error e
  | Except.ok d =>
    match get_cumulative_pause_duration now s with
    | Except.error e => Except.error e
    | Except.ok c => Except.ok (d - c)

/-- Two-digit zero padding for hours, minutes, seconds. -/
def pad2 (n : Nat) : String :=
  if n < 10 then "0" ++ toString n else toString n

/-- Four-digit zero padding for the fractional part. -/
def pad4 (n : Nat) : String :=
  if n < 10 then "000" ++ toString n
  else if n < 100 then "00" ++ toString n
  else if n < 1000 then "0" ++ toString n
  else toString n

/-- Modelled from the spec: §4.3 `formatDuration` / notebook
`format_time` — renders a non-negative seconds value as HH:MM:SS.ffff,
zero-padded, with four fractional digits (truncated), e.g.
`format_time 3661.1234 = "01:01:01.1234"`. -/
def format_time (time_seconds : ℚ) : String :=
  pad2 ((⌊time_seconds⌋).toNat / 3600) ++ ":" ++
    pad2 ((⌊time_seconds⌋).toNat % 3600 / 60) ++ ":" ++
    pad2 ((⌊time_seconds⌋).toNat % 60) ++ "." ++
    pad4 ((⌊(time_seconds - (⌊time_seconds⌋ : ℚ)) * 10000⌋).toNat)

/-- The six state-machine operations of §4.1, as a closed enumeration. -/
inductive TrackerOp
  | start
  | pause
  | resume
  | stop
  | discard
  | reset
deriving DecidableEq

/-- Dispatch a state-machine operation to the corresponding method. -/
def applyOp : TrackerOp → ℚ → StudySession → Except StudySessionError StudySession
  | TrackerOp.start, now, s => start_tracking now s
  | TrackerOp.pause, now, s => pause_tracking now s
  | TrackerOp.resume, now, s => resume_tracking now s
  | TrackerOp.stop, now, s => stop_tracking now s
  | TrackerOp.discard, _, s => discard_tracking s
  | TrackerOp.reset, _, s => reset_tracking s

/-- The method name each operation raises its StateViolation under. -/
def opName : TrackerOp → String
  | TrackerOp.start => "start_tracking"
  | TrackerOp.pause => "pause_tracking"
  | TrackerOp.resume => "resume_tracking"
  | TrackerOp.stop => "stop_tracking"
  | TrackerOp.discard => "discard_tracking"
  | TrackerOp.reset => "reset_tracking"

/-- The transition table of §4.1: which source states each operation is
valid from. -/
def validFrom : TrackerOp → SessionState → Bool
  | TrackerOp.start, SessionState.INACTIVE => true
  | TrackerOp.pause, SessionState.RUNNING => true
  | TrackerOp.resume, SessionState.PAUSED => true
  | TrackerOp.stop, SessionState.RUNNING => true
  | TrackerOp.stop, SessionState.PAUSED => true
  | TrackerOp.discard, SessionState.RUNNING => true
  | TrackerOp.discard, SessionState.PAUSED => true
  | TrackerOp.reset, SessionState.STOPPED => true
  | _, _ => false

/-- The transition table of §4.1: the target state of each operation. -/
def targetState : TrackerOp → SessionState
  | TrackerOp.start => SessionState.RUNNING
  | TrackerOp.pause => SessionState.PAUSED
  | TrackerOp.resume => SessionState.RUNNING
  | TrackerOp.stop => SessionState.STOPPED
  | TrackerOp.discard => SessionState.INACTIVE
  | TrackerOp.reset => SessionState.INACTIVE

/-- Run one operation the way a caller that catches the exception sees it:
on success the new tracker, on failure the unchanged tracker together with
the raised error. -/
def stepOp (o : TrackerOp) (now : ℚ) (s : StudySession) :
    StudySession × Option StudySessionError :=
  match applyOp o now s with
  | Except.ok s' => (s', none)
  | Except.error e => (s, some e)

/-- A caller-visible action: a state-machine operation (with the clock
reading it observes), a timezone assignment, or a subject assignment. -/
inductive TrackerAct
  | op (o : TrackerOp) (now : ℚ)
  | setTZ (tz : String)
  | setSubject (n : String)

/-- Run one action, keeping the tracker unchanged when it fails. -/
def stepAct : TrackerAct → StudySession → StudySession
  | TrackerAct.op o now, s => (stepOp o now s).1
  | TrackerAct.setTZ tz, s =>
    match set_timezone tz s with
    | Except.ok s' => s'
    | Except.error _ => s
  | TrackerAct.setSubject n, s => set_subject_name n s

/-- Run a sequence of (possibly failing) actions from a given tracker. -/
def runActs (acts : List TrackerAct) (s : StudySession) : StudySession :=
  acts.foldl (fun t a => stepAct a t) s

/-- The data-model invariants of §3 on a tracker, with the third one in its
amended form: startTime present iff the state is RUNNING, PAUSED or
STOPPED; stopTime present iff STOPPED; every pair except possibly the last
has a resumeTime, and a pair without one can exist only while the state is
PAUSED or STOPPED (the latter arises when stop is invoked from PAUSED,
which leaves the open pause pair in place). -/
def stateInv (s : StudySession) : Prop :=
  (s.start_time.isSome = true ↔ s.state ≠ SessionState.INACTIVE) ∧
  (s.stop_time.isSome = true ↔ s.state = SessionState.STOPPED) ∧
  (∀ pr ∈ s.pause_resume_times.dropLast, pr.2.isSome = true) ∧
  (∀ pr ∈ s.pause_resume_times, pr.2 = none →
    s.state = SessionState.PAUSED ∨ s.state = SessionState.STOPPED)

/-- `chainClosed lo l hi`: every pair of `l` is resolved and the timeline
`lo ≤ p₀ ≤ r₀ ≤ p₁ ≤ … ≤ hi` is monotone (§3's monotonicity invariant,
anchored between `lo` and `hi`). -/
def chainClosed : ℚ → List (ℚ × Option ℚ) → ℚ → Prop
  | lo, [], hi => lo ≤ hi
  | lo, (p, some r) :: rest, hi => lo ≤ p ∧ p ≤ r ∧ chainClosed r rest hi
  | _, (_, none) :: _, _ => False

/-- The timeline shape a tracker has after a clock-monotone run whose last
clock reading was at most `t`, by state: INACTIVE is empty; RUNNING has a
closed monotone chain up to `t`; PAUSED ends in one open pair; STOPPED has
its chain bounded by stopTime, with at most an open trailing pair (left by
a stop invoked from PAUSED). -/
def timelineInv (s : StudySession) (t : ℚ) : Prop :=
  match s.state with
  | SessionState.INACTIVE =>
    s.start_time = none ∧ s.stop_time = none ∧ s.pause_resume_times = []
  | SessionState.RUNNING =>
    ∃ st, s.start_time = some st ∧ s.stop_time = none ∧
      chainClosed st s.pause_resume_times t
  | SessionState.PAUSED =>
    ∃ st pre p, s.start_time = some st ∧ s.stop_time = none ∧
      s.pause_resume_times = pre ++ [(p, none)] ∧ chainClosed st pre p ∧ p ≤ t
  | SessionState.STOPPED =>
    ∃ st sp, s.start_time = some st ∧ s.stop_time = some sp ∧ sp ≤ t ∧
      (chainClosed st s.pause_resume_times sp ∨
        ∃ pre p, s.pause_resume_times = pre ++ [(p, none)] ∧
          chainClosed st pre p ∧ p ≤ sp)

/-- Trackers reachable from a fresh one by (possibly failing) actions whose
clock readings are monotone, the last one being at most `t` (§6 requires
the injected clock to be monotone). -/
inductive MonoReach : StudySession → ℚ → Prop
  | init (subject tz : String) (t : ℚ) : MonoReach (StudySession.new subject tz) t
  | opStep (o : TrackerOp) (now t : ℚ) (s : StudySession) :
      MonoReach s t → t ≤ now → MonoReach (stepOp o now s).1 now
  | tzStep (tz : String) (s : StudySession) (t : ℚ) :
      MonoReach s t → MonoReach (stepAct (TrackerAct.setTZ tz) s) t
  | subjStep (n : String) (s : StudySession) (t : ℚ) :
      MonoReach s t → MonoReach (set_subject_name n s) t

/-- The §8 demo scenario: start at 0, pause at 30, resume at 35, pause at
65, resume at 75, stop at 100. -/
def demoActs : List TrackerAct :=
  [TrackerAct.op TrackerOp.start 0, TrackerAct.op TrackerOp.pause 30,
   TrackerAct.op TrackerOp.resume 35, TrackerAct.op TrackerOp.pause 65,
   TrackerAct.op TrackerOp.resume 75, TrackerAct.op TrackerOp.stop 100]

/-- The tracker the §8 demo scenario ends in. -/
def sampleDemo : StudySession :=
  runActs demoActs (StudySession.new "demo" "America/New_York")

/-! ## Basic facts about the state machine -/

lemma applyOp_invalid (o : TrackerOp) (now : ℚ) (s : StudySession)
    (h : validFrom o s.state = false) :
    applyOp o now s =
      Except.error (StudySessionError.stateViolation (opName o) s.state) := by
  cases o <;> cases hs : s.state <;>
    simp_all [applyOp, validFrom, opName, start_tracking, pause_tracking,
      resume_tracking, stop_tracking, discard_tracking, reset_tracking]

lemma applyOp_valid (o : TrackerOp) (now : ℚ) (s : StudySession)
    (h : validFrom o s.state = true) :
    ∃ s', applyOp o now s = Except.ok s' ∧ s'.state = targetState o := by
  cases o <;> cases hs : s.state <;>
    simp_all [applyOp, validFrom, targetState, start_tracking, pause_tracking,
      resume_tracking, stop_tracking, discard_tracking, reset_tracking]

lemma applyOp_ok (o : TrackerOp) (now : ℚ) (s s' : StudySession)
    (h : applyOp o now s = Except.ok s') :
    validFrom o s.state = true ∧ s'.state = targetState o := by
  cases o <;> cases hs : s.state <;>
    simp_all [applyOp, validFrom, targetState, start_tracking, pause_tracking,
      resume_tracking, stop_tracking, discard_tracking, reset_tracking] <;>
    subst h <;> rfl

lemma stepOp_invalid (o : TrackerOp) (now : ℚ) (s : StudySession)
    (h : validFrom o s.state = false) :
    stepOp o now s = (s, some (StudySessionError.stateViolation (opName o) s.state)) := by
  unfold stepOp
  rw [applyOp_invalid o now s h]

/-! ## Claim theorems -/

/-- C1: every operation invoked from a state the §4.1 transition table lists
as valid for it succeeds and leaves the tracker in the table's target state
(start → RUNNING, pause → PAUSED, resume → RUNNING, stop → STOPPED,
discard → INACTIVE, reset → INACTIVE); an operation succeeds only from a
listed state and otherwise leaves the tracker unchanged — in particular no
operation leaves STOPPED except reset and none leaves INACTIVE except
start.  Applied after each step of a sequence, this gives the full claim. -/
theorem transition_table_correct (o : TrackerOp) (now : ℚ) (s : StudySession) :
    (validFrom o s.state = true →
      ∃ s', applyOp o now s = Except.ok s' ∧ s'.state = targetState o) ∧
    (∀ s', applyOp o now s = Except.ok s' →
      validFrom o s.state = true ∧ s'.state = targetState o) ∧
    (validFrom o s.state = false → (stepOp o now s).1 = s) :=
  ⟨fun h => applyOp_valid o now s h,
   fun s' h => applyOp_ok o now s s' h,
   fun h => by rw [stepOp_invalid o now s h]⟩

/-- C2: an operation invoked from a state not listed as valid for it fails
with a StateViolation carrying the attempted operation's name and the
current state, mutates no field of the tracker, and a repeated invalid call
(at any later clock reading) yields the same error with the tracker still
unchanged. -/
theorem invalid_op_atomic_idempotent (o : TrackerOp) (now now' : ℚ)
    (s : StudySession) (h : validFrom o s.state = false) :
    stepOp o now s =
      (s, some (StudySessionError.stateViolation (opName o) s.state)) ∧
    stepOp o now' (stepOp o now s).1 =
      (s, some (StudySessionError.stateViolation (opName o) s.state)) := by
  have h1 := stepOp_invalid o now s h
  have h2 := stepOp_invalid o now' s h
  refine ⟨h1, ?_⟩
  rw [h1]
  exact h2

/-- Witness for C2: calling pause on a fresh (INACTIVE) tracker raises a
StateViolation naming pause_tracking and INACTIVE, and leaves the tracker
unchanged. -/
theorem invalid_op_atomic_idempotent_witness :
    stepOp TrackerOp.pause 1 (StudySession.new "math" "UTC") =
      (StudySession.new "math" "UTC",
       some (StudySessionError.stateViolation "pause_tracking" SessionState.INACTIVE)) ∧
    stepOp TrackerOp.pause 2
        (stepOp TrackerOp.pause 1 (StudySession.new "math" "UTC")).1 =
      (StudySession.new "math" "UTC",
       some (StudySessionError.stateViolation "pause_tracking" SessionState.INACTIVE)) :=
  invalid_op_atomic_idempotent TrackerOp.pause 1 2 (StudySession.new "math" "UTC") rfl

/-- C7: performing start, then stop, then reset on a freshly constructed
tracker returns it to the exact initial shape (state INACTIVE, both times
absent, empty pair sequence, same subject and timezone). -/
theorem start_stop_reset_roundtrip (subject tz : String) (t1 t2 t3 : ℚ) :
    runActs [TrackerAct.op TrackerOp.start t1, TrackerAct.op TrackerOp.stop t2,
             TrackerAct.op TrackerOp.reset t3]
      (StudySession.new subject tz) = StudySession.new subject tz := by
  simp [runActs, stepAct, stepOp, applyOp, start_tracking, stop_tracking,
    reset_tracking, StudySession.new]

/-- C9: setting the timezone succeeds exactly in state INACTIVE; in any
other state it fails with a StateViolation naming set_timezone and the
current state and leaves the timezone unchanged, while the subject label
may be set in any state (changing no other field). -/
theorem timezone_subject_mutation (tz n : String) (s : StudySession) :
    (s.state = SessionState.INACTIVE →
      set_timezone tz s = Except.ok { s with timezone := tz }) ∧
    (s.state ≠ SessionState.INACTIVE →
      set_timezone tz s =
        Except.error (StudySessionError.stateViolation "set_timezone" s.state) ∧
      (stepAct (TrackerAct.setTZ tz) s).timezone = s.timezone) ∧
    (set_subject_name n s).subject_name = n ∧
    (set_subject_name n s).state = s.state ∧
    (set_subject_name n s).timezone = s.timezone := by
  refine ⟨fun h => ?_, fun h => ⟨?_, ?_⟩, rfl, rfl, rfl⟩
  · simp [set_timezone, h]
  · simp [set_timezone, h]
  · simp [stepAct, set_timezone, h]

lemma get_pause_duration_lt (now : ℚ) (idx : Nat) (s : StudySession)
    (h : s.state ≠ SessionState.INACTIVE) (hidx : idx < s.pause_resume_times.length) :
    get_pause_duration now idx s =
      Except.ok (pairDur now (s.pause_resume_times.getD idx (0, none))) := by
  have hget : s.pause_resume_times[idx]? = some s.pause_resume_times[idx] :=
    List.getElem?_eq_getElem hidx
  simp [get_pause_duration, h, hget, List.getD_eq_getD_get?]

lemma get_pause_duration_oob (now : ℚ) (idx : Nat) (s : StudySession)
    (h : s.state ≠ SessionState.INACTIVE) (hidx : s.pause_resume_times.length ≤ idx) :
    get_pause_duration now idx s =
      Except.error (StudySessionError.indexOutOfRange idx) := by
  have hget : s.pause_resume_times[idx]? = none := by
    rw [← List.get?_eq_getElem?]
    exact List.get?_eq_none.mpr hidx
  simp [get_pause_duration, h, hget]

lemma pauseSum_eq_sum (now : ℚ) (l : List (ℚ × Option ℚ)) :
    pauseSum now l =
      ((List.range l.length).map (fun i => pairDur now (l.getD i (0, none)))).sum := by
  induction l with
  | nil => simp [pauseSum]
  | cons pr rest ih =>
    rw [List.length_cons, List.range_succ_eq_map, List.map_cons, List.sum_cons,
      List.map_map]
    have hmap : ∀ i : Nat,
        ((fun i => pairDur now ((pr :: rest).getD i (0, none))) ∘ Nat.succ) i =
          pairDur now (rest.getD i (0, none)) := by
      intro i
      simp [Function.comp, List.getD_cons_succ]
    rw [List.map_congr_left (fun i _ => hmap i)]
    simp [pauseSum, ih, List.getD_cons_zero]

/-- C5: for a tracker whose state is not INACTIVE, pauseDuration at an
index within the recorded pairs is `(resumeTime ?? now) − pauseTime` for
that pair, and at an index outside the recorded pairs it fails with an
IndexOutOfRange error. -/
theorem pause_duration_index_spec (now : ℚ) (idx : Nat) (s : StudySession)
    (h : s.state ≠ SessionState.INACTIVE) :
    (∀ hidx : idx < s.pause_resume_times.length,
      get_pause_duration now idx s =
        Except.ok ((s.pause_resume_times.get ⟨idx, hidx⟩).2.getD now -
                   (s.pause_resume_times.get ⟨idx, hidx⟩).1)) ∧
    (s.pause_resume_times.length ≤ idx →
      get_pause_duration now idx s =
        Except.error (StudySessionError.indexOutOfRange idx)) := by
  constructor
  · intro hidx
    have hget : s.pause_resume_times[idx]? = some (s.pause_resume_times.get ⟨idx, hidx⟩) := by
      rw [← List.get?_eq_getElem?]
      exact List.get?_eq_get hidx
    simp [get_pause_duration, h, hget, pairDur]
  · exact get_pause_duration_oob now idx s h

/-- Witness for C5: on the §8 demo tracker, which has exactly two recorded
pairs, pauseDuration(5) raises IndexOutOfRange. -/
theorem pause_duration_index_spec_witness :
    get_pause_duration 200 5 sampleDemo =
      Except.error (StudySessionError.indexOutOfRange 5) :=
  (pause_duration_index_spec 200 5 sampleDemo (by decide)).2 (by decide)

/-- C6: while INACTIVE every duration query fails with a StateViolation;
in RUNNING, PAUSED and STOPPED the queries do not fail for being in that
state (pauseDuration succeeds on every in-range index); the cumulative
pause duration is the sum of pauseDuration(i) over all recorded pairs and
is zero when no pauses have occurred. -/
theorem duration_queries_by_state (now : ℚ) (s : StudySession) :
    (s.state = SessionState.INACTIVE →
      (∀ idx, get_pause_duration now idx s =
        Except.error
          (StudySessionError.stateViolation "get_pause_duration" s.state)) ∧
      get_cumulative_pause_duration now s =
        Except.error
          (StudySessionError.stateViolation "get_cumulative_pause_duration" s.state) ∧
      get_duration now s =
        Except.error (StudySessionError.stateViolation "get_duration" s.state) ∧
      get_active_duration now s =
        Except.error (StudySessionError.stateViolation "get_duration" s.state)) ∧
    (s.state ≠ SessionState.INACTIVE →
      (∃ d, get_duration now s = Except.ok d) ∧
      (∃ c, get_cumulative_pause_duration now s = Except.ok c) ∧
      (∃ a, get_active_duration now s = Except.ok a) ∧
      (∀ idx, idx < s.pause_resume_times.length →
        ∃ p, get_pause_duration now idx s = Except.ok p) ∧
      (∃ f : Nat → ℚ,
        (∀ idx, idx < s.pause_resume_times.length →
          get_pause_duration now idx s = Except.ok (f idx)) ∧
        get_cumulative_pause_duration now s =
          Except.ok (((List.range s.pause_resume_times.length).map f).sum)) ∧
      (s.pause_resume_times = [] →
        get_cumulative_pause_duration now s = Except.ok 0)) := by
  constructor
  · intro h
    refine ⟨fun idx => ?_, ?_, ?_, ?_⟩
    · simp [get_pause_duration, h]
    · simp [get_cumulative_pause_duration, h]
    · simp [get_duration, h]
    · simp [get_active_duration, get_duration, h]
  · intro h
    refine ⟨⟨s.stop_time.getD now - s.start_time.getD 0, by simp [get_duration, h]⟩,
      ⟨pauseSum now s.pause_resume_times, by simp [get_cumulative_pause_duration, h]⟩,
      ⟨s.stop_time.getD now - s.start_time.getD 0 - pauseSum now s.pause_resume_times,
        by simp [get_active_duration, get_duration, get_cumulative_pause_duration, h]⟩,
      fun idx hidx => ⟨_, get_pause_duration_lt now idx s h hidx⟩,
      ⟨fun i => pairDur now (s.pause_resume_times.getD i (0, none)),
        fun idx hidx => get_pause_duration_lt now idx s h hidx, ?_⟩,
      fun hnil => ?_⟩
    · simp [get_cumulative_pause_duration, h, pauseSum_eq_sum]
    · simp [get_cumulative_pause_duration, h, hnil, pauseSum]

lemma closeLastPair_append (now : ℚ) (l : List (ℚ × Option ℚ)) (p : ℚ) (r : Option ℚ) :
    closeLastPair now (l ++ [(p, r)]) = l ++ [(p, some now)] := by
  induction l with
  | nil => rfl
  | cons x rest ih =>
    cases rest with
    | nil => rfl
    | cons y rest2 =>
      show x :: closeLastPair now ((y :: rest2) ++ [(p, r)]) =
        x :: ((y :: rest2) ++ [(p, some now)])
      rw [ih]

lemma closeLastPair_all_some (now : ℚ) (l : List (ℚ × Option ℚ))
    (h : ∀ pr ∈ l.dropLast, pr.2.isSome = true) :
    ∀ pr ∈ closeLastPair now l, pr.2.isSome = true := by
  rcases List.eq_nil_or_concat l with rfl | ⟨pre, last, rfl⟩
  · intro pr hpr
    simp [closeLastPair] at hpr
  · obtain ⟨p, r⟩ := last
    rw [List.concat_eq_append, closeLastPair_append]
    intro pr hpr
    rcases List.mem_append.mp hpr with hm | hm
    · refine h pr ?_
      rw [List.concat_eq_append, List.dropLast_concat]
      exact hm
    · have hpr2 : pr = (p, some now) := by simpa using hm
      rw [hpr2]
      rfl

lemma stateInv_stepAct (a : TrackerAct) (s : StudySession) (h : stateInv s) :
    stateInv (stepAct a s) := by
  obtain ⟨sub, tz, st, t0, t1, prs⟩ := s
  obtain ⟨h1, h2, h3, h4⟩ := h
  cases a with
  | setTZ z =>
    cases st <;>
      simp_all [stepAct, set_timezone, stateInv] <;>
      first | exact ⟨h3, h4⟩ | exact h3 | exact h4
  | setSubject n =>
    simp_all [stepAct, set_subject_name, stateInv]
    exact ⟨h3, h4⟩
  | op o now =>
    cases o with
    | start =>
      cases st <;>
        simp_all [stepAct, stepOp, applyOp, start_tracking, stateInv] <;>
        first | exact ⟨h3, h4⟩ | exact h3 | exact h4
    | pause =>
      cases st <;>
        simp_all [stepAct, stepOp, applyOp, pause_tracking, stateInv,
          List.dropLast_concat, Option.ne_none_iff_isSome] <;>
        first | exact ⟨h3, h4⟩ | exact h3 | exact h4
    | resume =>
      cases st with
      | PAUSED =>
        have hall := closeLastPair_all_some now prs h3
        refine ⟨?_, ?_, ?_, ?_⟩
        · simp [stepAct, stepOp, applyOp, resume_tracking, h1]
        · simp [stepAct, stepOp, applyOp, resume_tracking, h2]
        · intro pr hpr
          have hm : pr ∈ closeLastPair now prs := by
            refine List.dropLast_subset _ ?_
            simpa [stepAct, stepOp, applyOp, resume_tracking] using hpr
          exact hall pr hm
        · intro pr hpr hnone
          have hm : pr ∈ closeLastPair now prs := by
            simpa [stepAct, stepOp, applyOp, resume_tracking] using hpr
          have hsome := hall pr hm
          rw [hnone] at hsome
          cases hsome
      | INACTIVE =>
        simp_all [stepAct, stepOp, applyOp, resume_tracking, stateInv]
        exact ⟨h3, h4⟩
      | RUNNING =>
        simp_all [stepAct, stepOp, applyOp, resume_tracking, stateInv]
        exact ⟨h3, h4⟩
      | STOPPED =>
        simp_all [stepAct, stepOp, applyOp, resume_tracking, stateInv]
        exact h3
    | stop =>
      cases st <;>
        simp_all [stepAct, stepOp, applyOp, stop_tracking, stateInv] <;>
        first | exact ⟨h3, h4⟩ | exact h3 | exact h4
    | discard =>
      cases st <;>
        simp_all [stepAct, stepOp, applyOp, discard_tracking, stateInv] <;>
        first | exact ⟨h3, h4⟩ | exact h3 | exact h4
    | reset =>
      cases st <;>
        simp_all [stepAct, stepOp, applyOp, reset_tracking, stateInv] <;>
        first | exact ⟨h3, h4⟩ | exact h3 | exact h4

lemma stateInv_runActs (acts : List TrackerAct) (s : StudySession) (h : stateInv s) :
    stateInv (runActs acts s) := by
  induction acts generalizing s with
  | nil => exact h
  | cons a rest ih => exact ih (stepAct a s) (stateInv_stepAct a s h)

lemma stateInv_new (subject tz : String) : stateInv (StudySession.new subject tz) := by
  refine ⟨by simp [StudySession.new], by simp [StudySession.new], ?_, ?_⟩ <;>
    simp [StudySession.new]

/-- Counterexample to C3 as stated: stop invoked from PAUSED sets only the
stop time (§4.1), so the trace start, pause, stop reaches a STOPPED
tracker whose last pair still has an absent resumeTime — an open pair in a
reachable state that is not PAUSED. -/
theorem open_pair_in_stopped_counterexample :
    (runActs [TrackerAct.op TrackerOp.start 0, TrackerAct.op TrackerOp.pause 1,
              TrackerAct.op TrackerOp.stop 2]
      (StudySession.new "math" "UTC")).state = SessionState.STOPPED ∧
    (runActs [TrackerAct.op TrackerOp.start 0, TrackerAct.op TrackerOp.pause 1,
              TrackerAct.op TrackerOp.stop 2]
      (StudySession.new "math" "UTC")).pause_resume_times = [(1, none)] := by
  constructor <;> rfl

/-- C3 (amended): in every state reachable from a fresh tracker by any
sequence of possibly-failing operations, startTime is present iff the
state is RUNNING, PAUSED or STOPPED; stopTime is present iff STOPPED; and
at most the last pair has an absent resumeTime, which happens only while
the state is PAUSED or STOPPED (the latter when stop was invoked from
PAUSED, which leaves the open pause pair in place). -/
theorem reachable_data_invariants (acts : List TrackerAct) (subject tz : String) :
    stateInv (runActs acts (StudySession.new subject tz)) :=
  stateInv_runActs acts (StudySession.new subject tz) (stateInv_new subject tz)

/-- C8: format_time is a pure total function that renders every
non-negative input as zero-padded HH:MM:SS.ffff — hours, minutes and
seconds decompose the floor of the input, minutes and seconds are below
60, and the fractional part has exactly four digits — and in particular
format_time 3661.1234 = "01:01:01.1234". -/
theorem format_time_spec :
    (∀ q : ℚ, 0 ≤ q →
      ∃ hrs mins secs f, format_time q =
          pad2 hrs ++ ":" ++ pad2 mins ++ ":" ++ pad2 secs ++ "." ++ pad4 f ∧
        mins < 60 ∧ secs < 60 ∧ f < 10000 ∧
        hrs * 3600 + mins * 60 + secs = (⌊q⌋).toNat) ∧
    format_time (36611234 / 10000) = "01:01:01.1234" := by
  constructor
  · intro q hq
    refine ⟨(⌊q⌋).toNat / 3600, (⌊q⌋).toNat % 3600 / 60, (⌊q⌋).toNat % 60,
      (⌊(q - (⌊q⌋ : ℚ)) * 10000⌋).toNat, rfl, by omega, by omega, ?_, by omega⟩
    have h1 : (q - (⌊q⌋ : ℚ)) * 10000 < 10000 := by
      rw [Int.self_sub_floor]
      calc Int.fract q * 10000 < 1 * 10000 :=
        mul_lt_mul_of_pos_right (Int.fract_lt_one q) (by norm_num)
      _ = 10000 := by norm_num
    have h2 : ⌊(q - (⌊q⌋ : ℚ)) * 10000⌋ < (10000 : ℤ) := by
      refine Int.floor_lt.mpr ?_
      exact_mod_cast h1
    omega
  · have hf1 : ⌊(36611234 : ℚ) / 10000⌋ = (3661 : ℤ) := by
      rw [Int.floor_eq_iff]
      norm_num
    have hf2 : ⌊((36611234 : ℚ) / 10000 - ((3661 : ℤ) : ℚ)) * 10000⌋ = (1234 : ℤ) := by
      rw [Int.floor_eq_iff]
      norm_num
    simp only [format_time]
    rw [hf1, hf2]
    decide

lemma chainClosed_mono (lo : ℚ) (l : List (ℚ × Option ℚ)) (hi hp : ℚ)
    (h : chainClosed lo l hi) (hh : hi ≤ hp) : chainClosed lo l hp := by
  induction l generalizing lo with
  | nil => exact le_trans h hh
  | cons pr rest ih =>
    obtain ⟨p, r⟩ := pr
    cases r with
    | none => exact h.elim
    | some rv =>
      obtain ⟨ha, hb, hc⟩ := h
      exact ⟨ha, hb, ih rv hc⟩

lemma chainClosed_close (lo p now : ℚ) (l : List (ℚ × Option ℚ))
    (h : chainClosed lo l p) (hn : p ≤ now) :
    chainClosed lo (l ++ [(p, some now)]) now := by
  induction l generalizing lo with
  | nil => exact ⟨h, hn, le_refl now⟩
  | cons pr rest ih =>
    obtain ⟨q, r⟩ := pr
    cases r with
    | none => exact h.elim
    | some rv =>
      obtain ⟨ha, hb, hc⟩ := h
      exact ⟨ha, hb, ih rv hc⟩

lemma chainClosed_pauseSum (lo : ℚ) (l : List (ℚ × Option ℚ)) (hi now : ℚ)
    (h : chainClosed lo l hi) : pauseSum now l ≤ hi - lo := by
  induction l generalizing lo with
  | nil =>
    have hl : lo ≤ hi := h
    simp [pauseSum]
    linarith
  | cons pr rest ih =>
    obtain ⟨q, r⟩ := pr
    cases r with
    | none => exact h.elim
    | some rv =>
      obtain ⟨ha, hb, hc⟩ := h
      have hrec := ih rv hc
      have hstep : pauseSum now ((q, some rv) :: rest) = (rv - q) + pauseSum now rest := by
        simp [pauseSum, pairDur]
      rw [hstep]
      linarith

lemma timelineInv_mono (s : StudySession) (t tp : ℚ)
    (h : timelineInv s t) (ht : t ≤ tp) : timelineInv s tp := by
  obtain ⟨sub, tz, st, t0, t1, prs⟩ := s
  cases st with
  | INACTIVE => exact h
  | RUNNING =>
    obtain ⟨st0, ha, hb, hc⟩ := h
    exact ⟨st0, ha, hb, chainClosed_mono st0 prs t tp hc ht⟩
  | PAUSED =>
    obtain ⟨st0, pre, p, ha, hb, hc, hd, he⟩ := h
    exact ⟨st0, pre, p, ha, hb, hc, hd, le_trans he ht⟩
  | STOPPED =>
    obtain ⟨st0, sp, ha, hb, hc, hd⟩ := h
    exact ⟨st0, sp, ha, hb, le_trans hc ht, hd⟩

lemma timelineInv_stepOp (o : TrackerOp) (now t : ℚ) (s : StudySession)
    (h : timelineInv s t) (hle : t ≤ now) :
    timelineInv (stepOp o now s).1 now := by
  by_cases hv : validFrom o s.state = true
  · obtain ⟨sub, tz, st, t0, t1, prs⟩ := s
    cases o with
    | start =>
      cases st with
      | INACTIVE =>
        obtain ⟨ha, hb, hc⟩ := h
        have hstep :
            (stepOp TrackerOp.start now ⟨sub, tz, SessionState.INACTIVE, t0, t1, prs⟩).1 =
              ⟨sub, tz, SessionState.RUNNING, some now, t1, prs⟩ := rfl
        rw [hstep]
        subst hc
        exact ⟨now, rfl, hb, le_refl now⟩
      | RUNNING => simp [validFrom] at hv
      | PAUSED => simp [validFrom] at hv
      | STOPPED => simp [validFrom] at hv
    | pause =>
      cases st with
      | RUNNING =>
        obtain ⟨st0, ha, hb, hc⟩ := h
        have hstep :
            (stepOp TrackerOp.pause now ⟨sub, tz, SessionState.RUNNING, t0, t1, prs⟩).1 =
              ⟨sub, tz, SessionState.PAUSED, t0, t1, prs ++ [(now, none)]⟩ := rfl
        rw [hstep]
        exact ⟨st0, prs, now, ha, hb, rfl,
          chainClosed_mono st0 prs t now hc hle, le_refl now⟩
      | INACTIVE => simp [validFrom] at hv
      | PAUSED => simp [validFrom] at hv
      | STOPPED => simp [validFrom] at hv
    | resume =>
      cases st with
      | PAUSED =>
        obtain ⟨st0, pre, p, ha, hb, hc, hd, he⟩ := h
        have hstep :
            (stepOp TrackerOp.resume now ⟨sub, tz, SessionState.PAUSED, t0, t1, prs⟩).1 =
              ⟨sub, tz, SessionState.RUNNING, t0, t1, closeLastPair now prs⟩ := rfl
        rw [hstep]
        subst hc
        rw [closeLastPair_append]
        exact ⟨st0, ha, hb, chainClosed_close st0 p now pre hd (le_trans he hle)⟩
      | INACTIVE => simp [validFrom] at hv
      | RUNNING => simp [validFrom] at hv
      | STOPPED => simp [validFrom] at hv
    | stop =>
      cases st with
      | RUNNING =>
        obtain ⟨st0, ha, hb, hc⟩ := h
        have hstep :
            (stepOp TrackerOp.stop now ⟨sub, tz, SessionState.RUNNING, t0, t1, prs⟩).1 =
              ⟨sub, tz, SessionState.STOPPED, t0, some now, prs⟩ := rfl
        rw [hstep]
        exact ⟨st0, now, ha, rfl, le_refl now,
          Or.inl (chainClosed_mono st0 prs t now hc hle)⟩
      | PAUSED =>
        obtain ⟨st0, pre, p, ha, hb, hc, hd, he⟩ := h
        have hstep :
            (stepOp TrackerOp.stop now ⟨sub, tz, SessionState.PAUSED, t0, t1, prs⟩).1 =
              ⟨sub, tz, SessionState.STOPPED, t0, some now, prs⟩ := rfl
        rw [hstep]
        exact ⟨st0, now, ha, rfl, le_refl now,
          Or.inr ⟨pre, p, hc, hd, le_trans he hle⟩⟩
      | INACTIVE => simp [validFrom] at hv
      | STOPPED => simp [validFrom] at hv
    | discard =>
      cases st with
      | RUNNING => exact ⟨rfl, rfl, rfl⟩
      | PAUSED => exact ⟨rfl, rfl, rfl⟩
      | INACTIVE => simp [validFrom] at hv
      | STOPPED => simp [validFrom] at hv
    | reset =>
      cases st with
      | STOPPED => exact ⟨rfl, rfl, rfl⟩
      | INACTIVE => simp [validFrom] at hv
      | RUNNING => simp [validFrom] at hv
      | PAUSED => simp [validFrom] at hv
  · have hvf : validFrom o s.state = false := by simpa using hv
    rw [stepOp_invalid o now s hvf]
    exact timelineInv_mono s t now h hle

lemma timelineInv_setTZ (z : String) (s : StudySession) (t : ℚ)
    (h : timelineInv s t) : timelineInv (stepAct (TrackerAct.setTZ z) s) t := by
  obtain ⟨sub, tz, st, t0, t1, prs⟩ := s
  cases st <;> exact h

lemma timelineInv_setSubject (n : String) (s : StudySession) (t : ℚ)
    (h : timelineInv s t) : timelineInv (set_subject_name n s) t := by
  obtain ⟨sub, tz, st, t0, t1, prs⟩ := s
  exact h

lemma monoReach_timelineInv (s : StudySession) (t : ℚ) (h : MonoReach s t) :
    timelineInv s t := by
  induction h with
  | init subject tz t => exact ⟨rfl, rfl, rfl⟩
  | opStep o now t s hm hle ih => exact timelineInv_stepOp o now t s ih hle
  | tzStep z s t hm ih => exact timelineInv_setTZ z s t ih
  | subjStep n s t hm ih => exact timelineInv_setSubject n s t ih

lemma timelineInv_stopped (s : StudySession) (t : ℚ) (h : timelineInv s t)
    (hs : s.state = SessionState.STOPPED) :
    ∃ st0 sp, s.start_time = some st0 ∧ s.stop_time = some sp ∧ sp ≤ t ∧
      (chainClosed st0 s.pause_resume_times sp ∨
        ∃ pre p, s.pause_resume_times = pre ++ [(p, none)] ∧
          chainClosed st0 pre p ∧ p ≤ sp) := by
  obtain ⟨sub, tz, st, t0, t1, prs⟩ := s
  simp only at hs
  subst hs
  exact h

lemma active_duration_error (now : ℚ) (s : StudySession) (e : StudySessionError)
    (h : get_active_duration now s = Except.error e) :
    get_duration now s = Except.error e ∨
      get_cumulative_pause_duration now s = Except.error e := by
  unfold get_active_duration at h
  cases hd : get_duration now s with
  | error e2 =>
    rw [hd] at h
    have he : e2 = e := by simpa using h
    exact Or.inl (by rw [he])
  | ok d =>
    rw [hd] at h
    cases hc : get_cumulative_pause_duration now s with
    | error e2 =>
      rw [hc] at h
      have he : e2 = e := by simpa using h
      exact Or.inr (by rw [he])
    | ok c =>
      rw [hc] at h
      simp at h

/-- Counterexample to C4 as stated: a tracker stopped from PAUSED keeps
its open pause pair, whose duration keeps growing with now(); queried
later, activeDuration is negative even though the recorded pairs satisfy
§3's pairwise monotonicity. -/
theorem negative_active_duration_counterexample :
    (runActs [TrackerAct.op TrackerOp.start 0, TrackerAct.op TrackerOp.pause 1,
              TrackerAct.op TrackerOp.stop 2]
      (StudySession.new "math" "UTC")).state = SessionState.STOPPED ∧
    get_active_duration 100
      (runActs [TrackerAct.op TrackerOp.start 0, TrackerAct.op TrackerOp.pause 1,
                TrackerAct.op TrackerOp.stop 2]
        (StudySession.new "math" "UTC")) = Except.ok (-97) ∧
    ((-97 : ℚ) < 0) := by
  have hrun : runActs [TrackerAct.op TrackerOp.start 0, TrackerAct.op TrackerOp.pause 1,
      TrackerAct.op TrackerOp.stop 2] (StudySession.new "math" "UTC") =
      ⟨"math", "UTC", SessionState.STOPPED, some 0, some 2, [(1, none)]⟩ := rfl
  refine ⟨rfl, ?_, by norm_num⟩
  rw [hrun]
  simp [get_active_duration, get_duration, get_cumulative_pause_duration,
    pauseSum, pairDur]
  all_goals norm_num

/-- C4 (amended): for every tracker reached by a clock-monotone run that
is STOPPED with all recorded pairs resolved (which is the case whenever
stop was invoked from RUNNING), all three duration queries succeed,
activeDuration is totalDuration minus cumulativePauseDuration,
activeDuration + cumulativePauseDuration = totalDuration exactly (time is
modelled in ℚ), and activeDuration ≥ 0; activeDuration never raises an
error beyond those of its two constituent calls. -/
theorem stopped_duration_algebra (s : StudySession) (t now : ℚ)
    (h1 : MonoReach s t) (h2 : s.state = SessionState.STOPPED)
    (h3 : ∀ pr ∈ s.pause_resume_times, pr.2.isSome = true) :
    (∃ dur cum, get_duration now s = Except.ok dur ∧
      get_cumulative_pause_duration now s = Except.ok cum ∧
      get_active_duration now s = Except.ok (dur - cum) ∧
      (dur - cum) + cum = dur ∧ 0 ≤ dur - cum) ∧
    (∀ e, get_active_duration now s = Except.error e →
      get_duration now s = Except.error e ∨
      get_cumulative_pause_duration now s = Except.error e) := by
  have hti := monoReach_timelineInv s t h1
  have hni : s.state ≠ SessionState.INACTIVE := by
    rw [h2]
    simp
  obtain ⟨st0, sp, ha, hb, hc, hd⟩ := timelineInv_stopped s t hti h2
  rcases hd with hchain | ⟨pre, p, hpre, hpc, hps⟩
  · refine ⟨⟨sp - st0, pauseSum now s.pause_resume_times, ?_, ?_, ?_, by ring, ?_⟩,
      fun e he => active_duration_error now s e he⟩
    · simp [get_duration, hni, ha, hb]
    · simp [get_cumulative_pause_duration, hni]
    · simp [get_active_duration, get_duration, get_cumulative_pause_duration, hni, ha, hb]
    · have hsum := chainClosed_pauseSum st0 s.pause_resume_times sp now hchain
      linarith
  · exfalso
    have hmem : ((p, none) : ℚ × Option ℚ) ∈ s.pause_resume_times := by
      rw [hpre]
      simp
    have hsome := h3 (p, none) hmem
    simp at hsome

/-- Witness for C4 (amended): the §8 demo run is clock-monotone, ends
STOPPED with both pairs resolved, and the amended algebra holds for it. -/
theorem stopped_duration_algebra_witness :
    (∃ dur cum, get_duration 200 sampleDemo = Except.ok dur ∧
      get_cumulative_pause_duration 200 sampleDemo = Except.ok cum ∧
      get_active_duration 200 sampleDemo = Except.ok (dur - cum) ∧
      (dur - cum) + cum = dur ∧ 0 ≤ dur - cum) ∧
    (∀ e, get_active_duration 200 sampleDemo = Except.error e →
      get_duration 200 sampleDemo = Except.error e ∨
      get_cumulative_pause_duration 200 sampleDemo = Except.error e) := by
  refine stopped_duration_algebra sampleDemo 100 200 ?_ (by decide) (by decide)
  show MonoReach sampleDemo 100
  have r0 : MonoReach (StudySession.new "demo" "America/New_York") (0 : ℚ) :=
    MonoReach.init "demo" "America/New_York" 0
  have r1 := MonoReach.opStep TrackerOp.start 0 0 _ r0 le_rfl
  have r2 := MonoReach.opStep TrackerOp.pause 30 0 _ r1 (by norm_num)
  have r3 := MonoReach.opStep TrackerOp.resume 35 30 _ r2 (by norm_num)
  have r4 := MonoReach.opStep TrackerOp.pause 65 35 _ r3 (by norm_num)
  have r5 := MonoReach.opStep TrackerOp.resume 75 65 _ r4 (by norm_num)
  have r6 := MonoReach.opStep TrackerOp.stop 100 75 _ r5 (by norm_num)
  exact r6

/-- C10: a tracker constructed with only a subject name has timezone UTC,
and the optional second constructor argument becomes the timezone. -/
theorem constructor_timezone_default (subject tz : String) :
    StudySession.newDefault subject = StudySession.new subject "UTC" ∧
    (StudySession.newDefault subject).timezone = "UTC" ∧
    (StudySession.new subject tz).timezone = tz ∧
    (StudySession.new subject tz).subject_name = subject ∧
    (StudySession.new subject tz).state = SessionState.INACTIVE :=
  ⟨rfl, rfl, rfl, rfl, rfl⟩
